import Mathlib

/-!
Shallow embedding of `src/audio/ov/vorbisfile.go` (Go package `ov`), the
binding of a subset of the libvorbisfile C API, together with proofs about
its resource-lifecycle and error-mapping behaviour.

Modelling conventions:
* Native memory is a `Heap`: a counter of fresh addresses (starting at 1, so
  address 0 plays the role of the C null pointer / Go `nil`) and the list of
  currently allocated blocks.  `C.malloc` and `C.CString` allocate a block;
  `C.free` removes one.
* Calls into the native library are external to the repository: each binding
  function takes the native result as an explicit oracle argument, and
  records the native call, with the argument values the Go code passes, in a
  trace of `Ev` events.
* Go `panic` is the `Outcome.panicked` constructor; a normal return is
  `Outcome.ok`.
* C `double` results are modelled as `Rat` (the Go code only compares them
  with 0 and converts them; no floating-point arithmetic happens in the
  binding).  The C conversion `C.int(cres)` of a double truncates toward
  zero (`cInt`); the width-narrowing conversions of integer results are the
  identity here, since all error codes are far inside every width bound.
* The numeric values of the `OV_E*` constants come from the vorbis C header
  `codec.h`, which is outside this repository; the Go file imports them
  through cgo.
-/

set_option linter.unusedVariables false

namespace Ov

/-- `OV_EREAD` from the vorbis C headers. -/
def Eread : Int := -128

/-- `OV_EFAULT` from the vorbis C headers. -/
def Efault : Int := -129

/-- `OV_EIMPL` from the vorbis C headers. -/
def Eimpl : Int := -130

/-- `OV_EINVAL` from the vorbis C headers. -/
def Einval : Int := -131

/-- `OV_ENOTVORBIS` from the vorbis C headers. -/
def EnotVorbis : Int := -132

/-- `OV_EBADHEADER` from the vorbis C headers. -/
def EbadHeader : Int := -133

/-- `OV_EVERSION` from the vorbis C headers. -/
def Eversion : Int := -134

/-- `OV_ENOTAUDIO` from the vorbis C headers. -/
def EnotAudio : Int := -135

/-- `OV_EBADPACKET` from the vorbis C headers. -/
def EbadPacket : Int := -136

/-- `OV_EBADLINK` from the vorbis C headers. -/
def EbadLink : Int := -137

/-- `OV_ENOSEEK` from the vorbis C headers. -/
def EnoSeek : Int := -138

/-- The Go `errCodes` map, keyed by native code with string values.  A Go map
lookup at a missing key yields the zero value `""`.  Note the map literal in
the source has no entry for `OV_EBADHEADER`. -/
def errCodes (c : Int) : String :=
  if c = Eread then "Eread"
  else if c = Efault then "Efault"
  else if c = Eimpl then "Eimpl"
  else if c = Einval then "Einval"
  else if c = EnotVorbis then "EnotVorbis"
  else if c = Eversion then "Eversion"
  else if c = EnotAudio then "EnotAudio"
  else if c = EbadPacket then "EbadPacket"
  else if c = EbadLink then "EbadLink"
  else if c = EnoSeek then "EnoSeek"
  else ""

/-- Native memory: fresh-address counter and currently allocated blocks. -/
structure Heap where
  next : Nat
  allocated : List Nat
deriving Repr, DecidableEq

/-- The native memory state at process start. -/
def Heap.empty : Heap := ⟨1, []⟩

/-- `C.malloc` / `C.CString`: returns a fresh non-null address. -/
def Heap.malloc (h : Heap) : Nat × Heap :=
  (h.next, ⟨h.next + 1, h.next :: h.allocated⟩)

/-- `C.free`: removes a block from the allocated set. -/
def Heap.free (h : Heap) (a : Nat) : Heap :=
  ⟨h.next, h.allocated.erase a⟩

/-- Well-formed heap: the fresh-address counter never hands out the null
address 0. -/
def Heap.wf (h : Heap) : Prop := 0 < h.next

/-- Result of a Go function call: either a normal return or a `panic`. -/
inductive Outcome (α : Type) where
  | panicked (msg : String)
  | ok (val : α)
deriving Repr, DecidableEq

/-- Whether an `Outcome` is a panic. -/
def Outcome.isPanicked {α : Type} : Outcome α → Bool
  | Outcome.panicked _ => true
  | Outcome.ok _ => false

/-- Trace events: the native calls the binding performs, with the argument
values the Go code passes to them. -/
inductive Ev where
  | evMalloc (addr : Nat)
  | evFree (addr : Nat)
  | evLoad
  | evFopen (cpath vf : Nat)
  | evClear (vf : Nat)
  | evRead (vf buffer : Nat) (length bigendianp word sgned : Int)
  | evInfo (vf : Nat) (link : Int)
  | evSeekable (vf : Nat)
  | evPcmSeek (vf : Nat) (pos : Int)
  | evPcmTotal (vf : Nat) (i : Int)
  | evTimeTotal (vf : Nat) (i : Int)
  | evTimeTell (vf : Nat)
deriving Repr, DecidableEq

/-- Go `type File struct { vf *C.OggVorbis_File }`; `vf = 0` is the nil
pointer. -/
structure File where
  vf : Nat
deriving Repr, DecidableEq

/-- Go `type VorbisInfo struct { ... }`. -/
structure VorbisInfo where
  Version : Int
  Channels : Int
  Rate : Int
  BitrateUpper : Int
  BitrateNominal : Int
  BitrateLower : Int
  BitrateWindow : Int
deriving Repr, DecidableEq

/-- Go `Load`.  `loaded` is the package-level flag; `loadRes` is the result
of the native `vorbisfile_load()` resolver (0 = success).  Returns the new
flag, the returned error, and the trace of resolver invocations. -/
def Load (loaded : Bool) (loadRes : Int) : Bool × Option String × List Ev :=
  if loaded then (loaded, none, [])
  else if loadRes = 0 then (true, none, [Ev.evLoad])
  else (loaded, some "Error loading libvorbisfile shared library/dll", [Ev.evLoad])

/-- Go `IsLoaded`. -/
def IsLoaded (loaded : Bool) : Bool := loaded

/-- The Go panic message of `checkLoaded`. -/
def notLoadedMsg : String := "libvorbisfile shared library/dll was not loaded"

/-- Go `checkLoaded`: panics when the library is not loaded. -/
def checkLoaded (loaded : Bool) : Outcome Unit :=
  if !loaded then Outcome.panicked notLoadedMsg
  else Outcome.ok ()

/-- Result record of `Fopen`: final heap, the returned `*File` (Go `nil` is
`none`), the returned error, and the native-call trace. -/
structure FopenOut where
  heap : Heap
  file : Option File
  err : Option String
  trace : List Ev
deriving Repr, DecidableEq

/-- Go `Fopen`.  Allocates the `OggVorbis_File` block, allocates the C copy
of `path`, calls `ov_fopen` (result `fopenRes`), and frees the path copy via
`defer` on both return paths.  On native success returns the handle; on
native failure returns `nil` and the mapped error. -/
def Fopen (loaded : Bool) (h : Heap) (path : String) (fopenRes : Int) : Outcome FopenOut :=
  match checkLoaded loaded with
  | Outcome.panicked m => Outcome.panicked m
  | Outcome.ok _ =>
    let (vf, h1) := h.malloc
    let (cpath, h2) := h1.malloc
    let tr := [Ev.evMalloc vf, Ev.evMalloc cpath, Ev.evFopen cpath vf, Ev.evFree cpath]
    if fopenRes = 0 then
      Outcome.ok ⟨h2.free cpath, some ⟨vf⟩, none, tr⟩
    else
      Outcome.ok ⟨h2.free cpath, none,
        some ("Error:" ++ errCodes fopenRes ++ " from Fopen"), tr⟩

/-- Result record of `Clear`: final heap, the handle after the call, the
returned error, and the native-call trace. -/
structure ClearOut where
  heap : Heap
  file : File
  err : Option String
  trace : List Ev
deriving Repr, DecidableEq

/-- Go `Clear`.  Calls `ov_clear` (result `clearRes`); on success frees the
backing block and nulls `f.vf`; on failure returns the mapped error with
heap and handle untouched. -/
def Clear (loaded : Bool) (h : Heap) (f : File) (clearRes : Int) : Outcome ClearOut :=
  match checkLoaded loaded with
  | Outcome.panicked m => Outcome.panicked m
  | Outcome.ok _ =>
    if clearRes = 0 then
      Outcome.ok ⟨h.free f.vf, ⟨0⟩, none, [Ev.evClear f.vf, Ev.evFree f.vf]⟩
    else
      Outcome.ok ⟨h, f, some ("Error:" ++ errCodes clearRes ++ " from Clear"),
        [Ev.evClear f.vf]⟩

/-- Result record of `Read`: bytes read, logical bitstream, error, trace. -/
structure ReadOut where
  n : Int
  bitstream : Int
  err : Option String
  trace : List Ev
deriving Repr, DecidableEq

/-- Go `Read`.  Converts the two booleans to the C ints 1/0, calls `ov_read`
(result `readRes`; `bitstreamOut` is the value the native call stores in the
out-parameter); a negative result maps to the error, otherwise the byte
count and bitstream are returned. -/
def Read (loaded : Bool) (f : File) (buffer : Nat) (length : Int) (bigendianp : Bool)
    (word : Int) (sgned : Bool) (readRes : Int) (bitstreamOut : Int) : Outcome ReadOut :=
  match checkLoaded loaded with
  | Outcome.panicked m => Outcome.panicked m
  | Outcome.ok _ =>
    let cbigendianp : Int := if bigendianp then 1 else 0
    let csgned : Int := if sgned then 1 else 0
    let tr := [Ev.evRead f.vf buffer length cbigendianp word csgned]
    if readRes < 0 then
      Outcome.ok ⟨0, 0, some ("Error:" ++ errCodes readRes ++ " from Read()"), tr⟩
    else
      Outcome.ok ⟨readRes, bitstreamOut, none, tr⟩

/-- Result record of `Info`: the caller's `VorbisInfo` after the call, the
returned error, and the trace. -/
structure InfoOut where
  info : VorbisInfo
  err : Option String
  trace : List Ev
deriving Repr, DecidableEq

/-- Go `Info`.  `viRes` is the native `ov_info` result (`none` is the C null
pointer).  On success all seven fields of the caller's struct are overwritten
from the native struct; on null an error is returned and the struct is left
as it was. -/
def Info (loaded : Bool) (f : File) (link : Int) (info : VorbisInfo)
    (viRes : Option VorbisInfo) : Outcome InfoOut :=
  match checkLoaded loaded with
  | Outcome.panicked m => Outcome.panicked m
  | Outcome.ok _ =>
    match viRes with
    | none => Outcome.ok ⟨info, some "Error returned from 'ov_info'", [Ev.evInfo f.vf link]⟩
    | some vi => Outcome.ok ⟨vi, none, [Ev.evInfo f.vf link]⟩

/-- Go `Seekable`: nonzero native result means seekable. -/
def Seekable (loaded : Bool) (f : File) (seekableRes : Int) : Outcome (Bool × List Ev) :=
  match checkLoaded loaded with
  | Outcome.panicked m => Outcome.panicked m
  | Outcome.ok _ =>
    if seekableRes = 0 then Outcome.ok (false, [Ev.evSeekable f.vf])
    else Outcome.ok (true, [Ev.evSeekable f.vf])

/-- Go `PcmSeek`: zero native result is success, otherwise the mapped
error. -/
def PcmSeek (loaded : Bool) (f : File) (pos : Int) (seekRes : Int) :
    Outcome (Option String × List Ev) :=
  match checkLoaded loaded with
  | Outcome.panicked m => Outcome.panicked m
  | Outcome.ok _ =>
    if seekRes = 0 then Outcome.ok (none, [Ev.evPcmSeek f.vf pos])
    else Outcome.ok (some ("Error:" ++ errCodes seekRes ++ " from 'ov_pcm_seek()'"),
      [Ev.evPcmSeek f.vf pos])

/-- Go `PcmTotal`: negative native result maps to the error with a zero
sample count, otherwise the count is returned. -/
def PcmTotal (loaded : Bool) (f : File) (i : Int) (totalRes : Int) :
    Outcome (Int × Option String × List Ev) :=
  match checkLoaded loaded with
  | Outcome.panicked m => Outcome.panicked m
  | Outcome.ok _ =>
    if totalRes < 0 then
      Outcome.ok (0, some ("Error:" ++ errCodes totalRes ++ " from 'ov_pcm_total()'"),
        [Ev.evPcmTotal f.vf i])
    else Outcome.ok (totalRes, none, [Ev.evPcmTotal f.vf i])

/-- The C conversion `C.int(cres)` applied to a `double` value: truncation
toward zero. -/
def cInt (q : Rat) : Int := q.num.tdiv ((q.den : Int))

/-- Go `TimeTotal`: negative native double maps to the error with a zero
time, otherwise the time is returned. -/
def TimeTotal (loaded : Bool) (f : File) (i : Int) (totalRes : Rat) :
    Outcome (Rat × Option String × List Ev) :=
  match checkLoaded loaded with
  | Outcome.panicked m => Outcome.panicked m
  | Outcome.ok _ =>
    if totalRes < 0 then
      Outcome.ok (0, some ("Error:" ++ errCodes (cInt totalRes) ++ " from 'ov_time_total()'"),
        [Ev.evTimeTotal f.vf i])
    else Outcome.ok (totalRes, none, [Ev.evTimeTotal f.vf i])

/-- Go `TimeTell`.  Note the error message in the source names
`ov_time_total()`, copied from `TimeTotal`, although the native call made is
`ov_time_tell`. -/
def TimeTell (loaded : Bool) (f : File) (tellRes : Rat) :
    Outcome (Rat × Option String × List Ev) :=
  match checkLoaded loaded with
  | Outcome.panicked m => Outcome.panicked m
  | Outcome.ok _ =>
    if tellRes < 0 then
      Outcome.ok (0, some ("Error:" ++ errCodes (cInt tellRes) ++ " from 'ov_time_total()'"),
        [Ev.evTimeTell f.vf])
    else Outcome.ok (tellRes, none, [Ev.evTimeTell f.vf])

/-- Process-wide package state: the `loaded` flag and the native heap. -/
structure PkgState where
  loaded : Bool
  heap : Heap
deriving Repr, DecidableEq

/-- The state at process start: `var loaded = false`, empty native heap. -/
def initState : PkgState := ⟨false, Heap.empty⟩

/-- One invocation of a public operation of the package, with its arguments
and the native oracle results it consumes. -/
inductive Op where
  | opLoad (res : Int)
  | opIsLoaded
  | opFopen (path : String) (res : Int)
  | opClear (f : File) (res : Int)
  | opRead (f : File) (buffer : Nat) (length : Int) (be : Bool) (word : Int) (sg : Bool)
      (res bs : Int)
  | opInfo (f : File) (link : Int) (info : VorbisInfo) (viRes : Option VorbisInfo)
  | opSeekable (f : File) (res : Int)
  | opPcmSeek (f : File) (pos res : Int)
  | opPcmTotal (f : File) (i res : Int)
  | opTimeTotal (f : File) (i : Int) (res : Rat)
  | opTimeTell (f : File) (res : Rat)

/-- Effect of one operation on the package state.  Only `Load` writes the
`loaded` flag (its Go body contains the only assignment to the package
variable); every other operation reads it through `checkLoaded` and leaves
it as it is. -/
def runOp (s : PkgState) : Op → Outcome PkgState
  | Op.opLoad res => Outcome.ok ⟨(Load s.loaded res).1, s.heap⟩
  | Op.opIsLoaded => Outcome.ok s
  | Op.opFopen path res =>
    match Fopen s.loaded s.heap path res with
    | Outcome.panicked m => Outcome.panicked m
    | Outcome.ok out => Outcome.ok ⟨s.loaded, out.heap⟩
  | Op.opClear f res =>
    match Clear s.loaded s.heap f res with
    | Outcome.panicked m => Outcome.panicked m
    | Outcome.ok out => Outcome.ok ⟨s.loaded, out.heap⟩
  | Op.opRead f buffer length be word sg res bs =>
    match Read s.loaded f buffer length be word sg res bs with
    | Outcome.panicked m => Outcome.panicked m
    | Outcome.ok _ => Outcome.ok s
  | Op.opInfo f link info viRes =>
    match Info s.loaded f link info viRes with
    | Outcome.panicked m => Outcome.panicked m
    | Outcome.ok _ => Outcome.ok s
  | Op.opSeekable f res =>
    match Seekable s.loaded f res with
    | Outcome.panicked m => Outcome.panicked m
    | Outcome.ok _ => Outcome.ok s
  | Op.opPcmSeek f pos res =>
    match PcmSeek s.loaded f pos res with
    | Outcome.panicked m => Outcome.panicked m
    | Outcome.ok _ => Outcome.ok s
  | Op.opPcmTotal f i res =>
    match PcmTotal s.loaded f i res with
    | Outcome.panicked m => Outcome.panicked m
    | Outcome.ok _ => Outcome.ok s
  | Op.opTimeTotal f i res =>
    match TimeTotal s.loaded f i res with
    | Outcome.panicked m => Outcome.panicked m
    | Outcome.ok _ => Outcome.ok s
  | Op.opTimeTell f res =>
    match TimeTell s.loaded f res with
    | Outcome.panicked m => Outcome.panicked m
    | Outcome.ok _ => Outcome.ok s

/-- Run a sequence of operations; a panic aborts the rest of the run. -/
def runOps (s : PkgState) : List Op → Outcome PkgState
  | [] => Outcome.ok s
  | op :: rest =>
    match runOp s op with
    | Outcome.panicked m => Outcome.panicked m
    | Outcome.ok s2 => runOps s2 rest

/-- Run a sequence of `Load` calls with the given resolver results and
collect the flag and the concatenated resolver-invocation trace. -/
def runLoads (loaded : Bool) : List Int → Bool × List Ev
  | [] => (loaded, [])
  | r :: rs =>
    let step := Load loaded r
    let rest := runLoads step.1 rs
    (rest.1, step.2.2 ++ rest.2)

/-- Lifecycle states of a caller-held decoder handle. -/
inductive HandleState where
  | opened
  | closed
deriving Repr, DecidableEq

/-- Caller-held handle values reachable through the public interface: a
handle returned by a successful `Fopen` is open; a successful `Clear` closes
it; a failed `Clear` leaves it open. -/
inductive Reachable : File → HandleState → Prop where
  | viaFopen (h : Heap) (path : String) (res : Int) (out : FopenOut) (f : File) :
      h.wf → Fopen true h path res = Outcome.ok out → out.file = some f →
      Reachable f HandleState.opened
  | viaClearOk (f : File) (h : Heap) (res : Int) (out : ClearOut) :
      Reachable f HandleState.opened → Clear true h f res = Outcome.ok out →
      out.err = none → Reachable out.file HandleState.closed
  | viaClearFail (f : File) (h : Heap) (res : Int) (out : ClearOut) :
      Reachable f HandleState.opened → Clear true h f res = Outcome.ok out →
      out.err ≠ none → Reachable out.file HandleState.opened

-- Helper: an outcome known to be a normal return is not a panic.
theorem isPanicked_ok {α : Type} (o : Outcome α) (v : α) (hv : o = Outcome.ok v) :
    o.isPanicked = false := by
  subst hv; rfl

/-- C1: at a failing native open (`ov_fopen` returning `OV_EREAD`, as for a
missing file), `Fopen` returns no handle and the mapped OpenError, but the
`OggVorbis_File` block it allocated (address 1) is still allocated in the
final heap and no `free` of it appears in the trace — only the C path string
(address 2) is freed.  The native decoder allocation is leaked on the
failure path, contrary to the claim. -/
theorem fopen_leak :
    Fopen true Heap.empty "missing.ogg" Eread =
      Outcome.ok ⟨⟨3, [1]⟩, none, some "Error:Eread from Fopen",
        [Ev.evMalloc 1, Ev.evMalloc 2, Ev.evFopen 2 1, Ev.evFree 2]⟩ ∧
    1 ∈ (Heap.allocated ⟨3, [1]⟩) ∧
    Ev.evFree 1 ∉ [Ev.evMalloc 1, Ev.evMalloc 2, Ev.evFopen 2 1, Ev.evFree 2] := by
  refine ⟨?_, ?_, ?_⟩ <;> decide

/-- C2 counterexample: the `errCodes` map has no entry for `OV_EBADHEADER`,
one of the eleven codes of the enumeration, and a Go map lookup at a missing
key yields the zero value — so the bad-header code, like a code outside the
known set such as -1, produces the empty string rather than a named or
generic "unknown" error name, and an operation failing with the bad-header
code embeds the empty name in its message. -/
theorem errCodes_gap :
    errCodes EbadHeader = "" ∧ errCodes (-1) = "" ∧
    PcmSeek true ⟨1⟩ 0 EbadHeader =
      Outcome.ok (some "Error: from 'ov_pcm_seek()'", [Ev.evPcmSeek 1 0]) := by
  refine ⟨?_, ?_, ?_⟩ <;> decide

/-- C2 amended: each of the ten codes present in the `errCodes` map gets
exactly one nonempty name, the ten names pairwise distinct; every code
outside those ten — the bad-header code among them — yields the empty
string; and any nonzero native result still makes `Fopen` return an error
and no handle, never a silent success. -/
theorem errCodes_amended :
    (∀ c ∈ [Eread, Efault, Eimpl, Einval, EnotVorbis, Eversion, EnotAudio,
        EbadPacket, EbadLink, EnoSeek], errCodes c ≠ "") ∧
    ([Eread, Efault, Eimpl, Einval, EnotVorbis, Eversion, EnotAudio,
        EbadPacket, EbadLink, EnoSeek].map errCodes).Nodup ∧
    (∀ c : Int, c ∉ [Eread, Efault, Eimpl, Einval, EnotVorbis, Eversion, EnotAudio,
        EbadPacket, EbadLink, EnoSeek] → errCodes c = "") ∧
    (∀ (h : Heap) (path : String) (res : Int), res ≠ 0 →
      ∃ out, Fopen true h path res = Outcome.ok out ∧ out.file = none ∧
        out.err = some ("Error:" ++ errCodes res ++ " from Fopen")) := by
  refine ⟨by decide, by decide, ?_, ?_⟩
  · intro c hc
    simp only [List.mem_cons, List.not_mem_nil, or_false, not_or] at hc
    obtain ⟨h1, h2, h3, h4, h5, h6, h7, h8, h9, h10⟩ := hc
    simp [errCodes, h1, h2, h3, h4, h5, h6, h7, h8, h9, h10]
  · intro h path res hres
    have hF : Fopen true h path res =
        Outcome.ok ⟨⟨h.next + 2, h.next :: h.allocated⟩,
          none, some ("Error:" ++ errCodes res ++ " from Fopen"),
          [Ev.evMalloc h.next, Ev.evMalloc (h.next + 1), Ev.evFopen (h.next + 1) h.next,
           Ev.evFree (h.next + 1)]⟩ := by
      simp [Fopen, Heap.malloc, Heap.free, checkLoaded, hres]
    exact ⟨_, hF, rfl, rfl⟩

/-- C2 amended, witness: the invalid-argument code has a nonempty name, the
out-of-set code 7 has the empty name, and a failing `Fopen` still returns an
error and no handle. -/
theorem errCodes_amended_witness :
    errCodes Einval ≠ "" ∧ errCodes 7 = "" ∧
    ∃ out, Fopen true Heap.empty "x.ogg" Einval = Outcome.ok out ∧ out.file = none ∧
      out.err = some ("Error:" ++ errCodes Einval ++ " from Fopen") :=
  ⟨errCodes_amended.1 Einval (by decide),
   errCodes_amended.2.2.1 7 (by decide),
   errCodes_amended.2.2.2 Heap.empty "x.ogg" Einval (by decide)⟩

/-- C3: with the library loaded, `Clear` on native success performs the
two-step release — the `ov_clear` native teardown and then the `free` of the
backing allocation, in that order — and nulls the handle's reference; on
native failure it returns a CloseError carrying the mapped code name and
leaves the heap and the handle's reference unchanged (no free, no
nulling). -/
theorem clear_contract (h : Heap) (f : File) (res : Int) :
    (res = 0 → Clear true h f res =
      Outcome.ok ⟨h.free f.vf, ⟨0⟩, none, [Ev.evClear f.vf, Ev.evFree f.vf]⟩) ∧
    (res ≠ 0 → Clear true h f res =
      Outcome.ok ⟨h, f, some ("Error:" ++ errCodes res ++ " from Clear"),
        [Ev.evClear f.vf]⟩) := by
  constructor <;> intro hres <;> simp [Clear, checkLoaded, hres]

/-- C3 witness: a successful `Clear` of the handle at address 3 frees the
block and nulls the reference; a `Clear` failing with `OV_EINVAL` leaves
heap and handle unchanged and returns the mapped error. -/
theorem clear_contract_witness :
    Clear true ⟨5, [3]⟩ ⟨3⟩ 0 =
      Outcome.ok ⟨Heap.free ⟨5, [3]⟩ 3, ⟨0⟩, none, [Ev.evClear 3, Ev.evFree 3]⟩ ∧
    Clear true ⟨5, [3]⟩ ⟨3⟩ Einval =
      Outcome.ok ⟨⟨5, [3]⟩, ⟨3⟩, some ("Error:" ++ errCodes Einval ++ " from Clear"),
        [Ev.evClear 3]⟩ :=
  ⟨(clear_contract ⟨5, [3]⟩ ⟨3⟩ 0).1 rfl,
   (clear_contract ⟨5, [3]⟩ ⟨3⟩ Einval).2 (by decide)⟩

/-- C4: every operation of the package other than `Load` and `IsLoaded`
(`Fopen`, `Clear`, `Read`, `Info`, `Seekable`, `PcmSeek`, `PcmTotal`,
`TimeTotal`, `TimeTell`) runs `checkLoaded` first: with the library not
loaded the call panics with the "library not loaded" message — an abort,
not a returned error value — and with `loaded` true that abort branch is
unreachable: every such call returns a normal `Outcome.ok`. -/
theorem not_loaded_guard (h : Heap) (f : File) (path : String) (buffer : Nat)
    (length word res bs pos i : Int) (be sg : Bool) (info : VorbisInfo)
    (viRes : Option VorbisInfo) (q : Rat) :
    (Fopen false h path res = Outcome.panicked notLoadedMsg ∧
     Clear false h f res = Outcome.panicked notLoadedMsg ∧
     Read false f buffer length be word sg res bs = Outcome.panicked notLoadedMsg ∧
     Info false f i info viRes = Outcome.panicked notLoadedMsg ∧
     Seekable false f res = Outcome.panicked notLoadedMsg ∧
     PcmSeek false f pos res = Outcome.panicked notLoadedMsg ∧
     PcmTotal false f i res = Outcome.panicked notLoadedMsg ∧
     TimeTotal false f i q = Outcome.panicked notLoadedMsg ∧
     TimeTell false f q = Outcome.panicked notLoadedMsg) ∧
    ((Fopen true h path res).isPanicked = false ∧
     (Clear true h f res).isPanicked = false ∧
     (Read true f buffer length be word sg res bs).isPanicked = false ∧
     (Info true f i info viRes).isPanicked = false ∧
     (Seekable true f res).isPanicked = false ∧
     (PcmSeek true f pos res).isPanicked = false ∧
     (PcmTotal true f i res).isPanicked = false ∧
     (TimeTotal true f i q).isPanicked = false ∧
     (TimeTell true f q).isPanicked = false) := by
  constructor
  · exact ⟨rfl, rfl, rfl, rfl, rfl, rfl, rfl, rfl, rfl⟩
  · refine ⟨?_, ?_, ?_, ?_, ?_, ?_, ?_, ?_, ?_⟩
    · by_cases hc : res = 0 <;> simp [Fopen, checkLoaded, hc, Outcome.isPanicked]
    · by_cases hc : res = 0 <;> simp [Clear, checkLoaded, hc, Outcome.isPanicked]
    · by_cases hc : res < 0 <;> simp [Read, checkLoaded, hc, Outcome.isPanicked]
    · cases viRes <;> simp [Info, checkLoaded, Outcome.isPanicked]
    · by_cases hc : res = 0 <;> simp [Seekable, checkLoaded, hc, Outcome.isPanicked]
    · by_cases hc : res = 0 <;> simp [PcmSeek, checkLoaded, hc, Outcome.isPanicked]
    · by_cases hc : res < 0 <;> simp [PcmTotal, checkLoaded, hc, Outcome.isPanicked]
    · by_cases hc : q < 0 <;> simp [TimeTotal, checkLoaded, hc, Outcome.isPanicked]
    · by_cases hc : q < 0 <;> simp [TimeTell, checkLoaded, hc, Outcome.isPanicked]

/-- C5: `Load` is idempotent — with the flag already true it returns success
at once with no resolver invocation; with the flag false it invokes the
resolver exactly once, setting the flag on resolver success and leaving it
false with a LoadError on resolver failure; and over any further sequence of
`Load` calls after the flag is true the resolver is never invoked again. -/
theorem load_idempotent :
    (∀ res : Int, Load true res = (true, none, [])) ∧
    (∀ res : Int, res = 0 → Load false res = (true, none, [Ev.evLoad])) ∧
    (∀ res : Int, res ≠ 0 →
      Load false res = (false, some "Error loading libvorbisfile shared library/dll",
        [Ev.evLoad])) ∧
    (∀ rs : List Int, runLoads true rs = (true, [])) := by
  refine ⟨fun res => rfl, fun res hres => by simp [Load, hres],
    fun res hres => by simp [Load, hres], ?_⟩
  intro rs
  induction rs with
  | nil => rfl
  | cons r rs ih => simp [runLoads, Load, ih]

/-- C5 witness: concrete `Load` calls in each branch, and a run of three
further `Load` calls from the loaded state invoking the resolver zero
times. -/
theorem load_idempotent_witness :
    Load true 0 = (true, none, []) ∧
    Load false 0 = (true, none, [Ev.evLoad]) ∧
    Load false 1 = (false, some "Error loading libvorbisfile shared library/dll",
      [Ev.evLoad]) ∧
    runLoads true [0, 1, 5] = (true, []) :=
  ⟨load_idempotent.1 0, load_idempotent.2.1 0 rfl,
   load_idempotent.2.2.1 1 (by decide), load_idempotent.2.2.2 [0, 1, 5]⟩

-- Helper: a non-panicking operation never turns the loaded flag off.
theorem runOp_keeps_loaded (s : PkgState) (op : Op) (s2 : PkgState)
    (hrun : runOp s op = Outcome.ok s2) (hl : s.loaded = true) : s2.loaded = true := by
  cases op <;> simp only [runOp] at hrun
  case opLoad res =>
    injection hrun with hs2
    subst hs2
    simp [Load, hl]
  case opIsLoaded =>
    injection hrun with hs2
    subst hs2
    exact hl
  all_goals
    split at hrun
    case _ => exact Outcome.noConfusion hrun
    case _ =>
      injection hrun with hs2
      subst hs2
      exact hl

/-- C6: the process-wide loaded flag starts false, is set true only by a
successful `Load`, and no operation of the package ever resets it — over any
sequence of operations, once `IsLoaded` is true it stays true. -/
theorem loaded_monotone :
    initState.loaded = false ∧
    (∀ (s : PkgState) (op : Op) (s2 : PkgState), runOp s op = Outcome.ok s2 →
      s2.loaded = true → s.loaded = true ∨ ∃ res : Int, op = Op.opLoad res ∧ res = 0) ∧
    (∀ (s : PkgState) (ops : List Op) (s2 : PkgState), runOps s ops = Outcome.ok s2 →
      IsLoaded s.loaded = true → IsLoaded s2.loaded = true) := by
  refine ⟨rfl, ?_, ?_⟩
  · intro s op s2 hrun h2
    cases op <;> simp only [runOp] at hrun
    case opLoad res =>
      injection hrun with hs2
      subst hs2
      by_cases hl : s.loaded = true
      · exact Or.inl hl
      · simp only [Bool.not_eq_true] at hl
        by_cases hres : res = 0
        · exact Or.inr ⟨res, rfl, hres⟩
        · exfalso
          have h2b : (Load s.loaded res).1 = true := h2
          rw [hl] at h2b
          simp [Load, hres] at h2b
    case opIsLoaded =>
      injection hrun with hs2
      subst hs2
      exact Or.inl h2
    all_goals
      split at hrun
      case _ => exact Outcome.noConfusion hrun
      case _ =>
        injection hrun with hs2
        subst hs2
        exact Or.inl h2
  · intro s ops s2
    induction ops generalizing s with
    | nil =>
      intro hrun hl
      simp only [runOps] at hrun
      injection hrun with hs2
      subst hs2
      exact hl
    | cons op rest ih =>
      intro hrun hl
      simp only [runOps] at hrun
      cases hop : runOp s op with
      | panicked m =>
        rw [hop] at hrun
        exact Outcome.noConfusion hrun
      | ok s3 =>
        rw [hop] at hrun
        exact ih s3 hrun (runOp_keeps_loaded s op s3 hop hl)

/-- C6 witness: a successful `Load` from the initial state sets the flag,
and a run of further operations from a loaded state keeps `IsLoaded`
true. -/
theorem loaded_monotone_witness :
    ((⟨false, Heap.empty⟩ : PkgState).loaded = true ∨
      ∃ res : Int, Op.opLoad 0 = Op.opLoad res ∧ res = 0) ∧
    IsLoaded (PkgState.mk true Heap.empty).loaded = true :=
  ⟨loaded_monotone.2.1 ⟨false, Heap.empty⟩ (Op.opLoad 0) ⟨true, Heap.empty⟩ (by decide) rfl,
   loaded_monotone.2.2 ⟨true, Heap.empty⟩ [Op.opIsLoaded, Op.opPcmSeek ⟨1⟩ 0 0]
     ⟨true, Heap.empty⟩ (by decide) rfl⟩

/-- C7: `Read` returns a non-negative native result as the byte count
together with the native-reported logical bitstream and no error; a
negative native result yields the ReadError mapped through `errCodes` with
zeroed outputs; a native result of 0 — which `ov_read` reports at
end-of-stream and for a zero-length request — comes back as
`(0, current bitstream, success)`; and the `bigendianp`/`sgned` booleans are
passed to the native call as 1 when true and 0 when false, as the recorded
event shows. -/
theorem read_contract (f : File) (buffer : Nat) (length word : Int) (be sg : Bool)
    (readRes bitstreamOut : Int) :
    (0 ≤ readRes → Read true f buffer length be word sg readRes bitstreamOut =
      Outcome.ok ⟨readRes, bitstreamOut, none,
        [Ev.evRead f.vf buffer length (if be then 1 else 0) word (if sg then 1 else 0)]⟩) ∧
    (readRes < 0 → Read true f buffer length be word sg readRes bitstreamOut =
      Outcome.ok ⟨0, 0, some ("Error:" ++ errCodes readRes ++ " from Read()"),
        [Ev.evRead f.vf buffer length (if be then 1 else 0) word (if sg then 1 else 0)]⟩) ∧
    (readRes = 0 → Read true f buffer length be word sg readRes bitstreamOut =
      Outcome.ok ⟨0, bitstreamOut, none,
        [Ev.evRead f.vf buffer length (if be then 1 else 0) word
          (if sg then 1 else 0)]⟩) := by
  refine ⟨?_, ?_, ?_⟩
  · intro hres
    simp [Read, checkLoaded, not_lt.2 hres]
  · intro hres
    simp [Read, checkLoaded, hres]
  · intro hres
    subst hres
    simp [Read, checkLoaded]

/-- C7 witness: a successful 1024-byte big-endian read and a read failing
with `OV_EBADLINK`, both with the booleans passed as C ints. -/
theorem read_contract_witness :
    Read true ⟨2⟩ 9 4096 true 2 false 1024 1 =
      Outcome.ok ⟨1024, 1, none, [Ev.evRead 2 9 4096 1 2 0]⟩ ∧
    Read true ⟨2⟩ 9 4096 false 2 true (-137) 0 =
      Outcome.ok ⟨0, 0, some ("Error:" ++ errCodes (-137) ++ " from Read()"),
        [Ev.evRead 2 9 4096 0 2 1]⟩ := by
  constructor
  · have h := (read_contract ⟨2⟩ 9 4096 2 true false 1024 1).1 (by decide)
    simpa using h
  · have h := (read_contract ⟨2⟩ 9 4096 2 false true (-137) 0).2.1 (by decide)
    simpa using h

/-- C8: every caller-held handle reachable through the public interface has
a non-null native reference exactly when it is open — `Fopen` success hands
out a freshly allocated (hence non-null) reference, a successful `Clear`
nulls it, a failed `Clear` leaves it untouched — and `Fopen` on native
failure returns no handle at all. -/
theorem handle_invariant :
    (∀ (f : File) (st : HandleState), Reachable f st →
      (f.vf ≠ 0 ↔ st = HandleState.opened)) ∧
    (∀ (h : Heap) (path : String) (res : Int) (out : FopenOut), res ≠ 0 →
      Fopen true h path res = Outcome.ok out → out.file = none) := by
  constructor
  · intro f st hr
    induction hr with
    | viaFopen h path res out f hwf heq hfile =>
      simp only [iff_true, eq_self_iff_true]
      by_cases hres : res = 0
      · simp only [Fopen, checkLoaded, Heap.malloc, hres, if_pos] at heq
        injection heq with hout
        subst hout
        simp only [FopenOut.file] at hfile
        injection hfile with hf
        subst hf
        have : 0 < h.next := hwf
        simp only [ne_eq, File.vf]
        omega
      · simp only [Fopen, checkLoaded, Heap.malloc, hres, if_neg, if_false] at heq
        injection heq with hout
        subst hout
        simp at hfile
    | viaClearOk f h res out hr heq herr ih =>
      by_cases hres : res = 0
      · simp only [Clear, checkLoaded, hres, if_pos] at heq
        injection heq with hout
        subst hout
        simp
      · simp only [Clear, checkLoaded, hres, if_neg, if_false] at heq
        injection heq with hout
        subst hout
        simp at herr
    | viaClearFail f h res out hr heq herr ih =>
      by_cases hres : res = 0
      · simp only [Clear, checkLoaded, hres, if_pos] at heq
        injection heq with hout
        subst hout
        simp at herr
      · simp only [Clear, checkLoaded, hres, if_neg, if_false] at heq
        injection heq with hout
        subst hout
        exact ih
  · intro h path res out hres heq
    simp only [Fopen, checkLoaded, Heap.malloc, hres, if_neg, if_false] at heq
    injection heq with hout
    subst hout
    rfl

/-- C8 witness: the handle produced by a successful `Fopen` from the empty
heap is open with the non-null reference 1, and a `Fopen` failing with
`OV_EINVAL` returns no handle. -/
theorem handle_invariant_witness :
    ((⟨1⟩ : File).vf ≠ 0 ↔ HandleState.opened = HandleState.opened) ∧
    (⟨⟨3, [1]⟩, none, some "Error:Einval from Fopen",
        [Ev.evMalloc 1, Ev.evMalloc 2, Ev.evFopen 2 1, Ev.evFree 2]⟩ : FopenOut).file
      = none :=
  ⟨handle_invariant.1 ⟨1⟩ HandleState.opened
      (Reachable.viaFopen Heap.empty "a.ogg" 0
        ⟨⟨3, [1]⟩, some ⟨1⟩, none,
          [Ev.evMalloc 1, Ev.evMalloc 2, Ev.evFopen 2 1, Ev.evFree 2]⟩
        ⟨1⟩ Nat.one_pos (by decide) rfl),
   handle_invariant.2 Heap.empty "a.ogg" Einval
     ⟨⟨3, [1]⟩, none, some "Error:Einval from Fopen",
       [Ev.evMalloc 1, Ev.evMalloc 2, Ev.evFopen 2 1, Ev.evFree 2]⟩
     (by decide) (by decide)⟩

/-- C9: when the native `ov_time_tell` call reports `OV_EINVAL`, the error
`TimeTell` returns is "Error:Einval from 'ov_time_total()'" — the wrapped
operation name is `ov_time_total`, copied from `TimeTotal`, not the
`TimeTell`/`ov_time_tell` operation that produced the error. -/
theorem timeTell_wrong_operation :
    TimeTell true ⟨1⟩ (-131 : Rat) =
      Outcome.ok (0, some "Error:Einval from 'ov_time_total()'", [Ev.evTimeTell 1]) := by
  decide

/-- C10: whenever a value-returning operation fails on a negative native
result, the non-error outputs are the zero values — `Read` returns byte
count 0 and bitstream 0, and `PcmTotal`, `TimeTotal` and `TimeTell` each
return 0 alongside the error. -/
theorem zero_results_on_error (f : File) (buffer : Nat) (length word res bs i pt : Int)
    (be sg : Bool) (qt qtell : Rat) :
    (res < 0 → Read true f buffer length be word sg res bs =
      Outcome.ok ⟨0, 0, some ("Error:" ++ errCodes res ++ " from Read()"),
        [Ev.evRead f.vf buffer length (if be then 1 else 0) word (if sg then 1 else 0)]⟩) ∧
    (pt < 0 → PcmTotal true f i pt =
      Outcome.ok (0, some ("Error:" ++ errCodes pt ++ " from 'ov_pcm_total()'"),
        [Ev.evPcmTotal f.vf i])) ∧
    (qt < 0 → TimeTotal true f i qt =
      Outcome.ok (0, some ("Error:" ++ errCodes (cInt qt) ++ " from 'ov_time_total()'"),
        [Ev.evTimeTotal f.vf i])) ∧
    (qtell < 0 → TimeTell true f qtell =
      Outcome.ok (0, some ("Error:" ++ errCodes (cInt qtell) ++ " from 'ov_time_total()'"),
        [Ev.evTimeTell f.vf])) := by
  refine ⟨?_, ?_, ?_, ?_⟩
  · intro hc; simp [Read, checkLoaded, hc]
  · intro hc; simp [PcmTotal, checkLoaded, hc]
  · intro hc; simp [TimeTotal, checkLoaded, hc]
  · intro hc; simp [TimeTell, checkLoaded, hc]

/-- C10 witness: each of the four operations at a concrete negative native
result returns the zero values together with the mapped error. -/
theorem zero_results_on_error_witness :
    Read true ⟨4⟩ 11 512 true 2 true (-129) 3 =
      Outcome.ok ⟨0, 0, some ("Error:" ++ errCodes (-129) ++ " from Read()"),
        [Ev.evRead 4 11 512 (if true then 1 else 0) 2 (if true then 1 else 0)]⟩ ∧
    PcmTotal true ⟨4⟩ (-1) (-129) =
      Outcome.ok (0, some ("Error:" ++ errCodes (-129) ++ " from 'ov_pcm_total()'"),
        [Ev.evPcmTotal 4 (-1)]) ∧
    TimeTotal true ⟨4⟩ (-1) (-129 : Rat) =
      Outcome.ok (0, some ("Error:" ++ errCodes (cInt (-129 : Rat)) ++ " from 'ov_time_total()'"),
        [Ev.evTimeTotal 4 (-1)]) ∧
    TimeTell true ⟨4⟩ (-129 : Rat) =
      Outcome.ok (0, some ("Error:" ++ errCodes (cInt (-129 : Rat)) ++ " from 'ov_time_total()'"),
        [Ev.evTimeTell 4]) :=
  ⟨(zero_results_on_error ⟨4⟩ 11 512 2 (-129) 3 (-1) (-129) true true
      (-129 : Rat) (-129 : Rat)).1 (by decide),
   (zero_results_on_error ⟨4⟩ 11 512 2 (-129) 3 (-1) (-129) true true
      (-129 : Rat) (-129 : Rat)).2.1 (by decide),
   (zero_results_on_error ⟨4⟩ 11 512 2 (-129) 3 (-1) (-129) true true
      (-129 : Rat) (-129 : Rat)).2.2.1 (by decide),
   (zero_results_on_error ⟨4⟩ 11 512 2 (-129) 3 (-1) (-129) true true
      (-129 : Rat) (-129 : Rat)).2.2.2 (by decide)⟩

end Ov
